import Mathlib

/-!
Verification of the `cf-url` command-line tool (src/main.rs): a pure mapping
from a closed set of dashboard subcommands to destination URL strings, plus a
browser-launch step.  The definitions below are a shallow embedding of the
Rust source: `Commands` mirrors the `Commands` enum, `zone_url` and
`account_url` mirror the two formatting helpers, `resolve` mirrors the
`match cli.command` expression in `main`, and `launchOutcome` mirrors the
launch-and-exit tail of `main` with the result of the OS open call passed in
explicitly.
-/

namespace Cfurl

/-- The fixed dashboard origin (`DASH_BASE` in src/main.rs). -/
def DASH_BASE : String := "https://dash.cloudflare.com"

/-- The `Commands` enum from src/main.rs: one constructor per subcommand, with
the same optional/required plain-string payloads. -/
inductive Commands where
  | Dns (zone : String)
  | Workers (name : Option String)
  | Pages (name : Option String)
  | R2 (bucket : Option String)
  | D1 (database : Option String)
  | Kv (ns : Option String)
  | Analytics (zone : String)
  | Security (zone : String) (sect : Option String)
  | Ssl (zone : String)
  | Caching (zone : String)
  | Rules (zone : String)
  | Speed (zone : String)
  | Email (zone : String)
  | Spectrum (zone : String)
  | Network (zone : String)
  | Traffic (zone : String)
  | Scrape (zone : String)
  | ZeroTrust
  | Access
  | Tunnels
  | Stream
  | Images
  | Queues
  | Ai
  | Vectorize
  | Hyperdrive
  | DurableObjects
  | Account
  | Billing
  | AuditLog
  | ApiTokens
  | Registrar
  | Turnstile
  | Zaraz (zone : String)
  | WebAnalytics
  | Logs (zone : Option String)
  | Zone (zone : String)
  | Dash
deriving DecidableEq

/-- `fn zone_url(zone: &str, path: &str) -> String` from src/main.rs. -/
def zone_url (zone path : String) : String :=
  if path.isEmpty then
    DASH_BASE ++ "/?to=/:account/" ++ zone
  else
    DASH_BASE ++ "/?to=/:account/" ++ zone ++ "/" ++ path

/-- `fn account_url(path: &str) -> String` from src/main.rs. -/
def account_url (path : String) : String :=
  if path.isEmpty then
    DASH_BASE ++ "/?to=/:account"
  else
    DASH_BASE ++ "/?to=/:account/" ++ path

/-- The `let url = match cli.command` expression in `main` (src/main.rs).
The Rust `match section.as_deref()` on string literals is embedded as the
equivalent sequential equality tests; `map_or_else` on the optional names is
embedded as a pattern split on `none`/`some`. -/
def resolve : Commands → String
  | Commands.Dns zone => zone_url zone "dns"
  | Commands.Analytics zone => zone_url zone "analytics"
  | Commands.Security zone sect =>
      let path :=
        match sect with
        | some s =>
            if s = "waf" then "security/waf"
            else if s = "events" then "security/events"
            else if s = "ddos" then "security/ddos"
            else if s = "bots" then "security/bots"
            else "security"
        | none => "security"
      zone_url zone path
  | Commands.Ssl zone => zone_url zone "ssl-tls"
  | Commands.Caching zone => zone_url zone "caching"
  | Commands.Rules zone => zone_url zone "rules"
  | Commands.Speed zone => zone_url zone "speed"
  | Commands.Email zone => zone_url zone "email"
  | Commands.Spectrum zone => zone_url zone "spectrum"
  | Commands.Network zone => zone_url zone "network"
  | Commands.Traffic zone => zone_url zone "traffic"
  | Commands.Scrape zone => zone_url zone "content-protection"
  | Commands.Zaraz zone => zone_url zone "zaraz"
  | Commands.Zone zone => zone_url zone ""
  | Commands.Logs (some zone) => zone_url zone "analytics/logs"
  | Commands.Workers none => account_url "workers-and-pages"
  | Commands.Workers (some n) => account_url ("workers/services/view/" ++ n)
  | Commands.Pages none => account_url "workers-and-pages"
  | Commands.Pages (some n) => account_url ("pages/view/" ++ n)
  | Commands.R2 none => account_url "r2"
  | Commands.R2 (some b) => account_url ("r2/default/buckets/" ++ b)
  | Commands.D1 none => account_url "workers/d1"
  | Commands.D1 (some d) => account_url ("workers/d1/databases/" ++ d)
  | Commands.Kv none => account_url "workers/kv"
  | Commands.Kv (some n) => account_url ("workers/kv/namespaces/" ++ n)
  | Commands.ZeroTrust | Commands.Access => account_url "access"
  | Commands.Tunnels => account_url "access/tunnels"
  | Commands.Stream => account_url "stream"
  | Commands.Images => account_url "images"
  | Commands.Queues => account_url "queues"
  | Commands.Ai => account_url "ai"
  | Commands.Vectorize => account_url "vectorize"
  | Commands.Hyperdrive => account_url "hyperdrive"
  | Commands.DurableObjects => account_url "workers/durable-objects"
  | Commands.Account => account_url ""
  | Commands.Billing => account_url "billing"
  | Commands.AuditLog => account_url "audit-log"
  | Commands.ApiTokens => DASH_BASE ++ "/profile/api-tokens"
  | Commands.Registrar => account_url "domains"
  | Commands.Turnstile => account_url "turnstile"
  | Commands.WebAnalytics => account_url "web-analytics"
  | Commands.Logs none => account_url "logs"
  | Commands.Dash => DASH_BASE

/-- The launch-and-exit tail of `main` (src/main.rs): `open::that(&url)` either
fails with an error description (`some e`) or succeeds (`none`).  The result is
the process exit code, the lines printed to stdout, and the lines printed to
stderr.  The spinner is cosmetic (cleared before any final message) and is not
modelled. -/
def launchOutcome (openResult : Option String) : Nat × List String × List String :=
  match openResult with
  | some e => (1, [], ["✗ Failed to open browser: " ++ e])
  | none => (0, ["✓ Opened"], [])

/-- `true` iff the redirect-query marker `?to=/:account` occurs as a substring. -/
def containsToAccount (s : String) : Bool :=
  decide ("?to=/:account".data <:+: s.data)

end Cfurl

namespace Cfurl

/-- A string with a nonempty left component is nonempty. -/
theorem append_ne_empty_left (a b : String) (h : a ≠ "") : a ++ b ≠ "" := by
  intro hab
  apply h
  have hd := congrArg String.data hab
  rw [String.data_append] at hd
  exact String.ext (List.append_eq_nil.mp hd).1

/-- `account_url` on a nonempty path appends the path after the account marker. -/
theorem account_url_of_ne_empty (p : String) (hp : p ≠ "") :
    account_url p = DASH_BASE ++ "/?to=/:account/" ++ p := by
  unfold account_url
  rw [if_neg fun h => hp ((String.isEmpty_iff p).mp h)]

/-- `zone_url` on a nonempty path appends the path after the zone. -/
theorem zone_url_of_ne_empty (z p : String) (hp : p ≠ "") :
    zone_url z p = DASH_BASE ++ "/?to=/:account/" ++ z ++ "/" ++ p := by
  unfold zone_url
  rw [if_neg fun h => hp ((String.isEmpty_iff p).mp h)]

/-- Occurrence of the account marker is preserved by appending on the right. -/
theorem containsToAccount_append (s t : String) (h : containsToAccount s = true) :
    containsToAccount (s ++ t) = true := by
  unfold containsToAccount at h ⊢
  rw [decide_eq_true_iff] at h ⊢
  rw [String.data_append]
  exact h.trans ⟨[], t.data, by simp⟩

/-- Every output of `zone_url` contains the `?to=/:account` marker. -/
theorem containsToAccount_zone_url (z p : String) :
    containsToAccount (zone_url z p) = true := by
  unfold zone_url
  split
  · exact containsToAccount_append _ _ (by decide)
  · exact containsToAccount_append _ _
      (containsToAccount_append _ _ (containsToAccount_append _ _ (by decide)))

/-- Every output of `account_url` contains the `?to=/:account` marker. -/
theorem containsToAccount_account_url (p : String) :
    containsToAccount (account_url p) = true := by
  unfold account_url
  split
  · exact (by decide : containsToAccount (DASH_BASE ++ "/?to=/:account") = true)
  · exact containsToAccount_append _ _ (by decide)

/-- Splitting the trailing slash off the account marker. -/
theorem base_split (x : String) :
    DASH_BASE ++ "/?to=/:account/" ++ x = DASH_BASE ++ "/?to=/:account" ++ ("/" ++ x) := by
  rw [← String.append_assoc]
  rfl

/-- Every output of `zone_url` is the base followed by the redirect query. -/
theorem zone_url_to_account_form (z p : String) :
    ∃ rest : String, zone_url z p = DASH_BASE ++ "/?to=/:account" ++ rest := by
  unfold zone_url
  split
  · exact ⟨"/" ++ z, base_split z⟩
  · refine ⟨"/" ++ (z ++ "/" ++ p), ?_⟩
    rw [← base_split (z ++ "/" ++ p)]
    simp [String.append_assoc]

/-- Every output of `account_url` is the base followed by the redirect query. -/
theorem account_url_to_account_form (p : String) :
    ∃ rest : String, account_url p = DASH_BASE ++ "/?to=/:account" ++ rest := by
  unfold account_url
  split
  · exact ⟨"", (String.append_empty _).symm⟩
  · exact ⟨"/" ++ p, base_split p⟩

/-- C5: `resolve ZeroTrust` and `resolve Access` produce identical URL strings:
two distinct command names map to one and the same destination URL. -/
theorem C5_zerotrust_access_same_url :
    resolve Commands.ZeroTrust = resolve Commands.Access := rfl

/-- C4: `Logs` dispatches on the presence of the optional zone: with no zone it
resolves to the account-level logs URL, and with zone `z` it resolves to the
zone-scoped URL ending in `z/analytics/logs`. -/
theorem C4_logs_dispatch (z : String) :
    resolve (Commands.Logs none) = DASH_BASE ++ "/?to=/:account/" ++ "logs" ∧
    resolve (Commands.Logs (some z)) =
      DASH_BASE ++ "/?to=/:account/" ++ z ++ "/" ++ "analytics/logs" :=
  ⟨rfl, rfl⟩

/-- C1: every zone-scoped command resolves to
`DASH_BASE/?to=/:account/<zone>/<fixed-subpath>` (so with zone
`example.com` the URL contains the literal `/example.com/` followed by the
command's fixed subpath), and `Zone` alone omits the subpath, resolving to
`DASH_BASE/?to=/:account/<zone>`. -/
theorem C1_zone_scoped_form (z : String) :
    resolve (Commands.Dns z) = DASH_BASE ++ "/?to=/:account/" ++ z ++ "/" ++ "dns" ∧
    resolve (Commands.Analytics z) = DASH_BASE ++ "/?to=/:account/" ++ z ++ "/" ++ "analytics" ∧
    resolve (Commands.Ssl z) = DASH_BASE ++ "/?to=/:account/" ++ z ++ "/" ++ "ssl-tls" ∧
    resolve (Commands.Caching z) = DASH_BASE ++ "/?to=/:account/" ++ z ++ "/" ++ "caching" ∧
    resolve (Commands.Rules z) = DASH_BASE ++ "/?to=/:account/" ++ z ++ "/" ++ "rules" ∧
    resolve (Commands.Speed z) = DASH_BASE ++ "/?to=/:account/" ++ z ++ "/" ++ "speed" ∧
    resolve (Commands.Email z) = DASH_BASE ++ "/?to=/:account/" ++ z ++ "/" ++ "email" ∧
    resolve (Commands.Spectrum z) = DASH_BASE ++ "/?to=/:account/" ++ z ++ "/" ++ "spectrum" ∧
    resolve (Commands.Network z) = DASH_BASE ++ "/?to=/:account/" ++ z ++ "/" ++ "network" ∧
    resolve (Commands.Traffic z) = DASH_BASE ++ "/?to=/:account/" ++ z ++ "/" ++ "traffic" ∧
    resolve (Commands.Scrape z) =
      DASH_BASE ++ "/?to=/:account/" ++ z ++ "/" ++ "content-protection" ∧
    resolve (Commands.Zaraz z) = DASH_BASE ++ "/?to=/:account/" ++ z ++ "/" ++ "zaraz" ∧
    resolve (Commands.Zone z) = DASH_BASE ++ "/?to=/:account/" ++ z :=
  ⟨rfl, rfl, rfl, rfl, rfl, rfl, rfl, rfl, rfl, rfl, rfl, rfl, rfl⟩

/-- C2: for every zone `z`, `Security` with a recognised section
(`waf`, `events`, `ddos`, `bots`) resolves to a URL ending in
`/z/security/<section>`, while an absent section or any unrecognised section
string resolves to the URL ending in `/z/security`; the mapping is total, with
no error case. -/
theorem C2_security_sections (z s : String)
    (h : ¬(s = "waf" ∨ s = "events" ∨ s = "ddos" ∨ s = "bots")) :
    resolve (Commands.Security z (some "waf")) =
      DASH_BASE ++ "/?to=/:account/" ++ z ++ "/" ++ "security/waf" ∧
    resolve (Commands.Security z (some "events")) =
      DASH_BASE ++ "/?to=/:account/" ++ z ++ "/" ++ "security/events" ∧
    resolve (Commands.Security z (some "ddos")) =
      DASH_BASE ++ "/?to=/:account/" ++ z ++ "/" ++ "security/ddos" ∧
    resolve (Commands.Security z (some "bots")) =
      DASH_BASE ++ "/?to=/:account/" ++ z ++ "/" ++ "security/bots" ∧
    resolve (Commands.Security z none) =
      DASH_BASE ++ "/?to=/:account/" ++ z ++ "/" ++ "security" ∧
    resolve (Commands.Security z (some s)) =
      DASH_BASE ++ "/?to=/:account/" ++ z ++ "/" ++ "security" := by
  refine ⟨rfl, rfl, rfl, rfl, rfl, ?_⟩
  have e1 : resolve (Commands.Security z (some s)) =
      zone_url z
        (if s = "waf" then "security/waf"
         else if s = "events" then "security/events"
         else if s = "ddos" then "security/ddos"
         else if s = "bots" then "security/bots"
         else "security") := rfl
  rw [e1, if_neg fun h1 => h (Or.inl h1), if_neg fun h2 => h (Or.inr (Or.inl h2)),
    if_neg fun h3 => h (Or.inr (Or.inr (Or.inl h3))),
    if_neg fun h4 => h (Or.inr (Or.inr (Or.inr h4)))]
  rfl

/-- C2 witness: instantiation at zone `z` and unrecognised section `bogus`. -/
theorem C2_security_sections_witness :
    ¬("bogus" = "waf" ∨ "bogus" = "events" ∨ "bogus" = "ddos" ∨ "bogus" = "bots") ∧
    (resolve (Commands.Security "z" (some "waf")) =
        DASH_BASE ++ "/?to=/:account/" ++ "z" ++ "/" ++ "security/waf" ∧
      resolve (Commands.Security "z" (some "events")) =
        DASH_BASE ++ "/?to=/:account/" ++ "z" ++ "/" ++ "security/events" ∧
      resolve (Commands.Security "z" (some "ddos")) =
        DASH_BASE ++ "/?to=/:account/" ++ "z" ++ "/" ++ "security/ddos" ∧
      resolve (Commands.Security "z" (some "bots")) =
        DASH_BASE ++ "/?to=/:account/" ++ "z" ++ "/" ++ "security/bots" ∧
      resolve (Commands.Security "z" none) =
        DASH_BASE ++ "/?to=/:account/" ++ "z" ++ "/" ++ "security" ∧
      resolve (Commands.Security "z" (some "bogus")) =
        DASH_BASE ++ "/?to=/:account/" ++ "z" ++ "/" ++ "security") :=
  ⟨by decide, C2_security_sections "z" "bogus" (by decide)⟩

/-- C3: `Workers` with no name resolves to the account URL ending in
`workers-and-pages`; with a name `n` (any string, interpolated verbatim with no
escaping or validation) it resolves to the account URL ending in
`workers/services/view/<n>`. -/
theorem C3_workers_name (n : String) :
    resolve (Commands.Workers none) =
      DASH_BASE ++ "/?to=/:account/" ++ "workers-and-pages" ∧
    resolve (Commands.Workers (some n)) =
      DASH_BASE ++ "/?to=/:account/" ++ ("workers/services/view/" ++ n) :=
  ⟨rfl, account_url_of_ne_empty _ (append_ne_empty_left _ _ (by decide))⟩

/-- C8: when the OS open call fails with description `e`, the program prints
exactly one error message (containing `e`) to stderr, prints nothing to
stdout, and exits with status 1; when the open call succeeds it prints the
confirmation to stdout, prints nothing to stderr, and exits with status 0. -/
theorem C8_launch_outcomes (e : String) :
    (launchOutcome (some e)).1 = 1 ∧
    (launchOutcome (some e)).2.1 = [] ∧
    (∃ msg : String, (launchOutcome (some e)).2.2 = [msg] ∧ e.data <:+: msg.data) ∧
    (launchOutcome none).1 = 0 ∧
    (launchOutcome none).2.1 = ["✓ Opened"] ∧
    (launchOutcome none).2.2 = [] := by
  refine ⟨rfl, rfl, ⟨"✗ Failed to open browser: " ++ e, rfl, ?_⟩, rfl, rfl, rfl⟩
  exact ⟨"✗ Failed to open browser: ".data, [], by simp⟩

/-- C9: URL resolution is a pure, total, deterministic function on the closed
command set: any two resolutions of the same command agree, and every command
resolves to some URL string. -/
theorem C9_resolve_deterministic_total (c : Commands) (u₁ u₂ : String)
    (h₁ : resolve c = u₁) (h₂ : resolve c = u₂) :
    u₁ = u₂ ∧ ∃ u : String, resolve c = u :=
  ⟨h₁ ▸ h₂ ▸ rfl, ⟨resolve c, rfl⟩⟩

/-- C9 witness: instantiation at the `Dash` command. -/
theorem C9_resolve_deterministic_total_witness :
    resolve Commands.Dash = "https://dash.cloudflare.com" ∧
    resolve Commands.Dash = "https://dash.cloudflare.com" ∧
    ("https://dash.cloudflare.com" = "https://dash.cloudflare.com" ∧
      ∃ u : String, resolve Commands.Dash = u) :=
  ⟨rfl, rfl,
    C9_resolve_deterministic_total Commands.Dash
      "https://dash.cloudflare.com" "https://dash.cloudflare.com" rfl rfl⟩

/-- C10: `Workers` and `Pages` with no name resolve to one and the same URL
(the account URL ending in `workers-and-pages`), while for every name `n`
their with-name URLs differ (`workers/services/view/<n>` versus
`pages/view/<n>`). -/
theorem C10_workers_pages_share_default (n : String) :
    resolve (Commands.Workers none) = resolve (Commands.Pages none) ∧
    resolve (Commands.Workers (some n)) ≠ resolve (Commands.Pages (some n)) := by
  refine ⟨rfl, fun h => ?_⟩
  have hw : resolve (Commands.Workers (some n)) =
      DASH_BASE ++ "/?to=/:account/" ++ ("workers/services/view/" ++ n) :=
    account_url_of_ne_empty _ (append_ne_empty_left _ _ (by decide))
  have hp : resolve (Commands.Pages (some n)) =
      DASH_BASE ++ "/?to=/:account/" ++ ("pages/view/" ++ n) :=
    account_url_of_ne_empty _ (append_ne_empty_left _ _ (by decide))
  rw [hw, hp] at h
  have hlen := congrArg String.length h
  simp only [String.length_append] at hlen
  rw [show ("workers/services/view/" : String).length = 22 from rfl,
    show ("pages/view/" : String).length = 11 from rfl] at hlen
  omega

/-- C6 counterexample: `Dash` is a command other than `ApiTokens` whose
resolved URL (`https://dash.cloudflare.com`, the bare base) does not contain
the `?to=/:account` redirect-query pattern (every zone/account builder output
contains that pattern), so `ApiTokens` is not the only command that bypasses
the generic account-path builder. -/
theorem C6_counterexample :
    Commands.Dash ≠ Commands.ApiTokens ∧
    resolve Commands.Dash = "https://dash.cloudflare.com" ∧
    containsToAccount (resolve Commands.Dash) = false :=
  ⟨by decide, rfl, by decide⟩

/-- C6 (amended): `ApiTokens` and `Dash` are the only two commands whose
resolution bypasses the generic zone/account builders: `ApiTokens` resolves
directly to `base/profile/api-tokens` and `Dash` to the bare base, neither
containing the `?to=/:account` redirect-query pattern, while every other
command's resolved URL contains that pattern. -/
theorem C6_api_tokens_dash_bypass :
    resolve Commands.ApiTokens = DASH_BASE ++ "/profile/api-tokens" ∧
    resolve Commands.Dash = DASH_BASE ∧
    containsToAccount (resolve Commands.ApiTokens) = false ∧
    containsToAccount (resolve Commands.Dash) = false ∧
    ∀ c : Commands, c ≠ Commands.ApiTokens → c ≠ Commands.Dash →
      containsToAccount (resolve c) = true := by
  refine ⟨rfl, rfl, by decide, by decide, ?_⟩
  intro c h1 h2
  cases c with
  | Dns z => exact containsToAccount_zone_url z "dns"
  | Workers name =>
      cases name with
      | none => exact containsToAccount_account_url _
      | some n => exact containsToAccount_account_url _
  | Pages name =>
      cases name with
      | none => exact containsToAccount_account_url _
      | some n => exact containsToAccount_account_url _
  | R2 bucket =>
      cases bucket with
      | none => exact containsToAccount_account_url _
      | some b => exact containsToAccount_account_url _
  | D1 database =>
      cases database with
      | none => exact containsToAccount_account_url _
      | some d => exact containsToAccount_account_url _
  | Kv ns =>
      cases ns with
      | none => exact containsToAccount_account_url _
      | some n => exact containsToAccount_account_url _
  | Analytics z => exact containsToAccount_zone_url z "analytics"
  | Security z sect => exact containsToAccount_zone_url z _
  | Ssl z => exact containsToAccount_zone_url z "ssl-tls"
  | Caching z => exact containsToAccount_zone_url z "caching"
  | Rules z => exact containsToAccount_zone_url z "rules"
  | Speed z => exact containsToAccount_zone_url z "speed"
  | Email z => exact containsToAccount_zone_url z "email"
  | Spectrum z => exact containsToAccount_zone_url z "spectrum"
  | Network z => exact containsToAccount_zone_url z "network"
  | Traffic z => exact containsToAccount_zone_url z "traffic"
  | Scrape z => exact containsToAccount_zone_url z "content-protection"
  | ZeroTrust => exact containsToAccount_account_url "access"
  | Access => exact containsToAccount_account_url "access"
  | Tunnels => exact containsToAccount_account_url "access/tunnels"
  | Stream => exact containsToAccount_account_url "stream"
  | Images => exact containsToAccount_account_url "images"
  | Queues => exact containsToAccount_account_url "queues"
  | Ai => exact containsToAccount_account_url "ai"
  | Vectorize => exact containsToAccount_account_url "vectorize"
  | Hyperdrive => exact containsToAccount_account_url "hyperdrive"
  | DurableObjects => exact containsToAccount_account_url "workers/durable-objects"
  | Account => exact containsToAccount_account_url ""
  | Billing => exact containsToAccount_account_url "billing"
  | AuditLog => exact containsToAccount_account_url "audit-log"
  | ApiTokens => exact absurd rfl h1
  | Registrar => exact containsToAccount_account_url "domains"
  | Turnstile => exact containsToAccount_account_url "turnstile"
  | Zaraz z => exact containsToAccount_zone_url z "zaraz"
  | WebAnalytics => exact containsToAccount_account_url "web-analytics"
  | Logs z =>
      cases z with
      | none => exact containsToAccount_account_url "logs"
      | some zz => exact containsToAccount_zone_url zz "analytics/logs"
  | Zone z => exact containsToAccount_zone_url z ""
  | Dash => exact absurd rfl h2

/-- C6 witness: instantiation of the amended claim at the `Dns example.com`
command, which is neither `ApiTokens` nor `Dash`. -/
theorem C6_api_tokens_dash_bypass_witness :
    Commands.Dns "example.com" ≠ Commands.ApiTokens ∧
    Commands.Dns "example.com" ≠ Commands.Dash ∧
    containsToAccount (resolve (Commands.Dns "example.com")) = true :=
  ⟨by decide, by decide,
    C6_api_tokens_dash_bypass.2.2.2.2 (Commands.Dns "example.com") (by decide) (by decide)⟩

/-- C7: every resolved URL starts with the fixed dashboard base and matches
one of the two shapes: the redirect-query form `base ++ "/?to=/:account" ++ rest`
or the fixed-path form `base ++ p` where `p` is empty (the `Dash` output is
the bare base) or starts with `/` (the `ApiTokens` output). -/
theorem C7_url_shape (c : Commands) :
    (∃ rest : String, resolve c = DASH_BASE ++ "/?to=/:account" ++ rest) ∨
    (∃ p : String, resolve c = DASH_BASE ++ p ∧ (p = "" ∨ ∃ q : String, p = "/" ++ q)) := by
  cases c with
  | Dns z => exact Or.inl (zone_url_to_account_form z "dns")
  | Workers name =>
      cases name with
      | none => exact Or.inl (account_url_to_account_form _)
      | some n => exact Or.inl (account_url_to_account_form _)
  | Pages name =>
      cases name with
      | none => exact Or.inl (account_url_to_account_form _)
      | some n => exact Or.inl (account_url_to_account_form _)
  | R2 bucket =>
      cases bucket with
      | none => exact Or.inl (account_url_to_account_form _)
      | some b => exact Or.inl (account_url_to_account_form _)
  | D1 database =>
      cases database with
      | none => exact Or.inl (account_url_to_account_form _)
      | some d => exact Or.inl (account_url_to_account_form _)
  | Kv ns =>
      cases ns with
      | none => exact Or.inl (account_url_to_account_form _)
      | some n => exact Or.inl (account_url_to_account_form _)
  | Analytics z => exact Or.inl (zone_url_to_account_form z "analytics")
  | Security z sect => exact Or.inl (zone_url_to_account_form z _)
  | Ssl z => exact Or.inl (zone_url_to_account_form z "ssl-tls")
  | Caching z => exact Or.inl (zone_url_to_account_form z "caching")
  | Rules z => exact Or.inl (zone_url_to_account_form z "rules")
  | Speed z => exact Or.inl (zone_url_to_account_form z "speed")
  | Email z => exact Or.inl (zone_url_to_account_form z "email")
  | Spectrum z => exact Or.inl (zone_url_to_account_form z "spectrum")
  | Network z => exact Or.inl (zone_url_to_account_form z "network")
  | Traffic z => exact Or.inl (zone_url_to_account_form z "traffic")
  | Scrape z => exact Or.inl (zone_url_to_account_form z "content-protection")
  | ZeroTrust => exact Or.inl (account_url_to_account_form "access")
  | Access => exact Or.inl (account_url_to_account_form "access")
  | Tunnels => exact Or.inl (account_url_to_account_form "access/tunnels")
  | Stream => exact Or.inl (account_url_to_account_form "stream")
  | Images => exact Or.inl (account_url_to_account_form "images")
  | Queues => exact Or.inl (account_url_to_account_form "queues")
  | Ai => exact Or.inl (account_url_to_account_form "ai")
  | Vectorize => exact Or.inl (account_url_to_account_form "vectorize")
  | Hyperdrive => exact Or.inl (account_url_to_account_form "hyperdrive")
  | DurableObjects => exact Or.inl (account_url_to_account_form "workers/durable-objects")
  | Account => exact Or.inl (account_url_to_account_form "")
  | Billing => exact Or.inl (account_url_to_account_form "billing")
  | AuditLog => exact Or.inl (account_url_to_account_form "audit-log")
  | ApiTokens =>
      exact Or.inr ⟨"/profile/api-tokens", rfl, Or.inr ⟨"profile/api-tokens", rfl⟩⟩
  | Registrar => exact Or.inl (account_url_to_account_form "domains")
  | Turnstile => exact Or.inl (account_url_to_account_form "turnstile")
  | Zaraz z => exact Or.inl (zone_url_to_account_form z "zaraz")
  | WebAnalytics => exact Or.inl (account_url_to_account_form "web-analytics")
  | Logs z =>
      cases z with
      | none => exact Or.inl (account_url_to_account_form "logs")
      | some zz => exact Or.inl (zone_url_to_account_form zz "analytics/logs")
  | Zone z => exact Or.inl (zone_url_to_account_form z "")
  | Dash => exact Or.inr ⟨"", rfl, Or.inl rfl⟩

end Cfurl
